import Mathlib

/-!
Verification of the package-visibility access-control engine (`AppsFilter`)
of this repository against its specification.

The repository ships the engine's test suite (`AppsFilterTest`, found in
`src/core/jni/android/graphics/Paint.cpp` after the JNI glue); the engine
implementation itself (`AppsFilter.java`) is not among the source files, so
the definitions below are modelled from the specification's description of
the data model (§3), the Declaration Index (§4.1), the Visibility Resolver's
decision algorithm (§4.2), and the Mutation Protocol (§4.3), constrained by
the concrete input/output pairs the in-repository test suite asserts.
Where the specification's prose and the test suite's assertions disagree,
the test suite (the only code present) is taken as the ground truth and the
divergence is recorded in the theorems below.
-/

namespace AppsFilterSpec

/-- Modelled from the spec: platform constant `Process.FIRST_APPLICATION_UID`
(the first-application UID threshold of decision rule 1, §4.2); the constant
itself lives outside this repository. Android's value is 10000, consistent
with the test suite's `DUMMY_CALLING_UID = 10345` being a non-system UID. -/
def FIRST_APPLICATION_UID : Nat := 10000

/-- Modelled from the spec: platform constant `Build.VERSION_CODES.R`, the
"version at which query declarations became mandatory" (rule 9, §4.2);
the constant itself lives outside this repository. Android's value is 30. -/
def VERSION_R : Nat := 30

/-- Modelled from the spec: platform constant `Build.VERSION_CODES.P`, the
legacy SDK level used by the test suite's low-SDK scenario. Android's value
is 28. -/
def VERSION_P : Nat := 28

/-- The test suite's fixed non-system calling UID. -/
def DUMMY_CALLING_UID : Nat := 10345

/-- Modelled from the spec: one declared query intent pattern (action plus
optional data scheme) of a package's `declaredQueries` (§3); the
`Intent` class lives outside this repository. -/
structure IntentPattern where
  action : String
  dataScheme : Option String
deriving DecidableEq, Repr

/-- Modelled from the spec: one tuple of a package's `exposedFilters`
(action, category, data-scheme, §3); the `IntentFilter`/parsed-component
classes live outside this repository. -/
structure ExposedFilter where
  actions : List String
  categories : List String
  dataSchemes : List String
deriving DecidableEq, Repr

/-- Modelled from the spec: the `PackageRecord` of §3 (the parsed
`AndroidPackage` the test suite builds via `PackageImpl.forParsing`); the
parsing classes live outside this repository. Holds identity, the declared
capabilities fixed at registration, the exposed filters and the declared
queries. -/
structure AndroidPackage where
  packageName : String
  targetSdkVersion : Nat
  isForceQueryable : Bool
  queriesPackages : List String
  queriesIntents : List IntentPattern
  exposedFilters : List ExposedFilter
deriving DecidableEq, Repr

/-- Modelled from the spec: the `PackageSetting` handed to
`shouldFilterApplication` by the test suite; the class lives outside this
repository. It carries the identity, the optional backing `PackageRecord`
(absent exactly when the target is unregistered in the Store, rule 2 of
§4.2, mirrored by the test building a setting without `setPackage`), and
the installer-assigned system flag (`ApplicationInfo.FLAG_SYSTEM`, set by
the test via `setPkgFlags`). -/
structure PackageSetting where
  name : String
  pkg : Option AndroidPackage
  isSystem : Bool
deriving DecidableEq, Repr

/-- Modelled from the spec: the feature-flag configuration object
(`AppsFilter.FeatureConfig`, mocked by the test suite); the class lives
outside this repository. Global enable flag, per-package disable overrides
(rule 3 of §4.2), and the readiness bit set by the `onSystemReady`
lifecycle hook (§6). -/
structure FeatureConfig where
  globallyEnabled : Bool
  disabledPackages : List String
  systemReady : Bool
deriving DecidableEq, Repr

/-- Modelled from the spec: `FeatureConfig.packageIsEnabled` — whether
filtering is enabled for a given target package under this configuration. -/
def FeatureConfig.packageIsEnabled (fc : FeatureConfig) (p : AndroidPackage) : Bool :=
  !(fc.disabledPackages.contains p.packageName)

/-- Modelled from the spec: `FeatureConfig.onSystemReady` — the
configuration object's own readiness hook, invoked by the engine's
`onSystemReady` (observed contract of `testSystemReadyPropogates`). -/
def FeatureConfig.onSystemReady (fc : FeatureConfig) : FeatureConfig :=
  { fc with systemReady := true }

/-- Modelled from the spec: the engine's construction-time state, matching
the test suite's constructor
`AppsFilter(featureConfig, permissionManager, forceQueryableWhitelist, systemAppsQueryable)`;
the class lives outside this repository. The permission-checking
collaborator is out of scope for the decision (§6) and is omitted. -/
structure AppsFilter where
  featureConfig : FeatureConfig
  forceQueryableByDevice : List String
  systemAppsQueryable : Bool
deriving DecidableEq, Repr

/-- Modelled from the spec: the engine's `onSystemReady` lifecycle hook
(`onReady()` of §6): it propagates the readiness signal to the feature
configuration, the behaviour `testSystemReadyPropogates` verifies. -/
def AppsFilter.onSystemReady (af : AppsFilter) : AppsFilter :=
  { af with featureConfig := FeatureConfig.onSystemReady af.featureConfig }

/-- Modelled from the spec: intent-pattern-against-filter matching (§4.1
key normalization): action strings compared case-sensitively and exactly;
data schemes case-insensitively; a pattern with no data clause matches on
action alone. -/
def matchesFilter (q : IntentPattern) (f : ExposedFilter) : Bool :=
  f.actions.contains q.action &&
    (match q.dataScheme with
     | none => true
     | some s => f.dataSchemes.any (fun fs => fs.toLower = s.toLower))

/-- Modelled from the spec: whether any tuple of the target's
`exposedFilters` matches any declared intent pattern of the caller
(rule 9 of §4.2). -/
def matchesAnyFilter (callingPkg targetPkg : AndroidPackage) : Bool :=
  callingPkg.queriesIntents.any
    (fun q => targetPkg.exposedFilters.any (fun f => matchesFilter q f))

/-- Modelled from the spec: the tail of the Visibility Resolver's decision
algorithm (§4.2 rules 5-10), reached once rules 1-4 have resolved the
records. Two points are fixed by the in-repository test suite rather than
by the spec's prose: the device allow-list exemption (rule 6) keys on the
TARGET setting's system flag (`testForceQueryableByDevice_SystemCaller_DoesntFilter`
sets `FLAG_SYSTEM` on the target and expects visible for a plain caller),
and the legacy-SDK carve-out (the spec's rule 9b) grants visibility to any
caller below `VERSION_R` regardless of declared-query matching
(`testQueriesAction_NoMatchingActionFilterLowSdk_DoesntFilter`). -/
def shouldFilterInternal (af : AppsFilter) (callingPkg : AndroidPackage)
    (targetSetting : PackageSetting) (targetPkg : AndroidPackage) : Bool :=
  if targetPkg.isForceQueryable then false
  else if af.forceQueryableByDevice.contains targetPkg.packageName
      && targetSetting.isSystem then false
  else if af.systemAppsQueryable && targetSetting.isSystem then false
  else if callingPkg.queriesPackages.contains targetPkg.packageName then false
  else if callingPkg.targetSdkVersion < VERSION_R then false
  else if matchesAnyFilter callingPkg targetPkg then false
  else true

/-- Modelled from the spec: the Visibility Resolver's public contract
`shouldFilterApplication(callerUid, callerRecordOrNull, targetRecord, userId) -> bool`
(§4.2); the implementation lives outside this repository. Rules are
evaluated in the spec's precedence order: (1) system-level caller UID →
visible; (2) unregistered target → filtered; (3) feature disabled globally
or for the target → visible; (4) unresolved caller record → filtered;
(5-10) `shouldFilterInternal`. Returns `true` meaning "hide target from
caller". -/
def shouldFilterApplication (af : AppsFilter) (callingUid : Nat)
    (callingSetting : Option PackageSetting) (targetSetting : PackageSetting)
    (_userId : Nat) : Bool :=
  if callingUid < FIRST_APPLICATION_UID then false
  else
    match targetSetting.pkg with
    | none => true
    | some targetPkg =>
      if !(af.featureConfig.globallyEnabled
          && af.featureConfig.packageIsEnabled targetPkg) then false
      else
        match callingSetting with
        | none => true
        | some callingSet =>
          match callingSet.pkg with
          | none => true
          | some callingPkg => shouldFilterInternal af callingPkg targetSetting targetPkg

/-- Modelled from the spec: the engine's error kinds (§7); the error
surface lives outside this repository. -/
inductive EngineError where
  | DuplicatePackage
  | UnknownPackage
  | InvalidArgument
deriving DecidableEq, Repr

/-- Modelled from the spec: the Declaration Index (§4.1), a reverse map
from normalized action key to the names of packages exposing a matching
filter; the index implementation lives outside this repository. -/
def DeclIndex : Type := List (String × List String)

instance : DecidableEq DeclIndex := by
  unfold DeclIndex
  infer_instance

/-- Modelled from the spec: insertion of one (action key, package name)
entry into the Declaration Index reverse map (§4.1 `register`). -/
def indexInsert (idx : DeclIndex) (key name : String) : DeclIndex :=
  match idx with
  | [] => [(key, [name])]
  | (k, ns) :: rest =>
    if k = key then (k, name :: ns) :: rest else (k, ns) :: indexInsert rest key name

/-- Modelled from the spec: registering all of a package's exposed filter
actions in the Declaration Index (§4.1 `register`). -/
def indexRegister (idx : DeclIndex) (p : AndroidPackage) : DeclIndex :=
  p.exposedFilters.foldl
    (fun acc f => f.actions.foldl (fun acc2 a => indexInsert acc2 a p.packageName) acc)
    idx

/-- Modelled from the spec: removal of every index entry owned by a package
(§4.1 `unregister`). -/
def indexUnregister (idx : DeclIndex) (name : String) : DeclIndex :=
  idx.map (fun kv => (kv.fst, kv.snd.filter (fun n => n ≠ name)))

/-- Modelled from the spec: Declaration Index lookup (§4.1): the set of
package names exposing a filter for the key; the empty set (never an
error) for unmatched keys. -/
def indexLookup (idx : DeclIndex) (key : String) : List String :=
  match idx with
  | [] => []
  | (k, ns) :: rest => if k = key then ns else indexLookup rest key

/-- Modelled from the spec: the engine's mutable internal state — the
PackageRecord Store and the Declaration Index kept consistent as a single
atomic unit (§3, §4.3); the store implementation lives outside this
repository. -/
structure EngineState where
  store : List AndroidPackage
  declIndex : DeclIndex
deriving DecidableEq

/-- Modelled from the spec: whether the Store already holds a record under
the given package name. -/
def storeContains (store : List AndroidPackage) (name : String) : Bool :=
  store.any (fun p => p.packageName = name)

/-- Modelled from the spec: `addPackage(record, currentSnapshot)` (§4.3):
registers a new record and atomically updates the Declaration Index in the
same logical step; fails with `DuplicatePackage` if the name is already
present (§4.1), leaving the state unchanged (§7: no error leaves the
engine's internal state inconsistent). The implementation lives outside
this repository. -/
def addPackage (p : AndroidPackage) (s : EngineState) : EngineState × Option EngineError :=
  if storeContains s.store p.packageName then
    (s, some EngineError.DuplicatePackage)
  else
    ({ store := p :: s.store, declIndex := indexRegister s.declIndex p }, none)

/-- Modelled from the spec: `removePackage(packageName)` (§4.3):
unregisters the record and its index contributions; `UnknownPackage`
(non-fatal) if the name was never registered (§4.1, §7). The
implementation lives outside this repository. -/
def removePackage (name : String) (s : EngineState) : EngineState × Option EngineError :=
  if storeContains s.store name then
    ({ store := s.store.filter (fun p => p.packageName ≠ name),
       declIndex := indexUnregister s.declIndex name }, none)
  else
    (s, some EngineError.UnknownPackage)

/-! ### Concrete fixtures mirroring the test suite's package builders -/

/-- The test suite's plain `pkg(packageName)` builder: target SDK version R,
no declared queries, no filters, not force-queryable. -/
def pkgPlain (name : String) : AndroidPackage :=
  { packageName := name
    targetSdkVersion := VERSION_R
    isForceQueryable := false
    queriesPackages := []
    queriesIntents := []
    exposedFilters := [] }

/-- A registered, non-system `PackageSetting` as produced by the test
suite's `simulateAddPackage(...).build()`. -/
def settingOf (p : AndroidPackage) : PackageSetting :=
  { name := p.packageName, pkg := some p, isSystem := false }

/-- The test suite's default mocked configuration: globally enabled, no
per-package overrides, not yet system-ready. -/
def defaultConfig : FeatureConfig :=
  { globallyEnabled := true, disabledPackages := [], systemReady := false }

/-- The test suite's default engine: empty device allow-list, system apps
not force-queryable. -/
def defaultFilter : AppsFilter :=
  { featureConfig := defaultConfig
    forceQueryableByDevice := []
    systemAppsQueryable := false }

/-- `pkg("com.some.package", new IntentFilter("TEST_ACTION"))`: the target
exposing a filter with action `TEST_ACTION`. -/
def targetPkgWithFilter : AndroidPackage :=
  { pkgPlain "com.some.package" with
      exposedFilters := [{ actions := ["TEST_ACTION"], categories := [], dataSchemes := [] }] }

/-- `pkg("com.some.other.package", new Intent("TEST_ACTION"))`: the caller
declaring a query intent with action `TEST_ACTION`. -/
def callerPkgQueriesAction : AndroidPackage :=
  { pkgPlain "com.some.other.package" with
      queriesIntents := [{ action := "TEST_ACTION", dataScheme := none }] }

/-- The same caller with `setTargetSdkVersion(Build.VERSION_CODES.P)`:
the legacy-SDK caller of the low-SDK scenario. -/
def callerPkgQueriesActionLowSdk : AndroidPackage :=
  { callerPkgQueriesAction with targetSdkVersion := VERSION_P }

/-- The engine constructed with device allow-list
`new String[]{"com.some.package"}`. -/
def filterWithAllowList : AppsFilter :=
  { defaultFilter with forceQueryableByDevice := ["com.some.package"] }

/-- The allow-listed target's setting with `FLAG_SYSTEM` set, as in
`testForceQueryableByDevice_SystemCaller_DoesntFilter`. -/
def targetSettingAllowedSystem : PackageSetting :=
  { settingOf (pkgPlain "com.some.package") with isSystem := true }

/-- An unregistered target: a `PackageSetting` with no backing record, as
built without `setPackage` in `testNoTargetPackage_filters`. -/
def targetSettingUnregistered : PackageSetting :=
  { name := "com.some.package", pkg := none, isSystem := false }

end AppsFilterSpec

namespace AppsFilterSpec

/-- Claim C1, counterexample. The claim states that for a target in the
device allow-list the result is `false` only if the CALLER's record is a
system package, and that every non-system caller is filtered. The test
suite's own scenario (`testForceQueryableByDevice_SystemCaller_DoesntFilter`)
refutes this: the target `com.some.package` is in the allow-list, the
caller's record is NOT a system package, yet the result is `false`
(visible) — because it is the target's setting that carries the system
flag. -/
theorem claim1_counterexample :
    filterWithAllowList.forceQueryableByDevice.contains "com.some.package" = true ∧
    targetSettingAllowedSystem.pkg = some (pkgPlain "com.some.package") ∧
    (settingOf (pkgPlain "com.some.other.package")).isSystem = false ∧
    shouldFilterApplication filterWithAllowList DUMMY_CALLING_UID
      (some (settingOf (pkgPlain "com.some.other.package")))
      targetSettingAllowedSystem 0 = false := by
  decide

/-- Claim C1, amended: the allow-list exemption is scoped to system
TARGETS, not to system callers. (a) If the target's package name is in the
device allow-list and the target's setting has the system flag, the result
is `false` for every caller with a resolved record. (b) If the target is
in the allow-list but its setting lacks the system flag, a caller with no
other applicable exemption is filtered. -/
theorem claim1_allowlist_target_system :
    (∀ (af : AppsFilter) (uid : Nat) (cs : PackageSetting) (cp : AndroidPackage)
        (ts : PackageSetting) (tp : AndroidPackage) (userId : Nat),
      ts.pkg = some tp →
      tp.packageName ∈ af.forceQueryableByDevice →
      ts.isSystem = true →
      cs.pkg = some cp →
      shouldFilterApplication af uid (some cs) ts userId = false) ∧
    (∀ (af : AppsFilter) (uid : Nat) (cs : PackageSetting) (cp : AndroidPackage)
        (ts : PackageSetting) (tp : AndroidPackage) (userId : Nat),
      FIRST_APPLICATION_UID ≤ uid →
      af.featureConfig.globallyEnabled = true →
      af.featureConfig.packageIsEnabled tp = true →
      ts.pkg = some tp →
      cs.pkg = some cp →
      tp.packageName ∈ af.forceQueryableByDevice →
      ts.isSystem = false →
      tp.isForceQueryable = false →
      tp.packageName ∉ cp.queriesPackages →
      VERSION_R ≤ cp.targetSdkVersion →
      matchesAnyFilter cp tp = false →
      shouldFilterApplication af uid (some cs) ts userId = true) := by
  constructor
  · intro af uid cs cp ts tp userId hts hal hsys hcs
    simp [shouldFilterApplication, shouldFilterInternal, hts, hcs, hal, hsys]
  · intro af uid cs cp ts tp userId huid hg hen hts hcs _hal hsys hfq hqp hsdk hm
    simp [shouldFilterApplication, shouldFilterInternal, hts, hcs, hg, hen,
      hsys, hfq, hqp, hm, Nat.not_lt.mpr huid, Nat.not_lt.mpr hsdk]

/-- Witness for `claim1_allowlist_target_system` at the test suite's two
allow-list scenarios. -/
theorem claim1_witness :
    shouldFilterApplication filterWithAllowList DUMMY_CALLING_UID
      (some (settingOf (pkgPlain "com.some.other.package")))
      targetSettingAllowedSystem 0 = false ∧
    shouldFilterApplication filterWithAllowList DUMMY_CALLING_UID
      (some (settingOf (pkgPlain "com.some.other.package")))
      (settingOf (pkgPlain "com.some.package")) 0 = true :=
  ⟨claim1_allowlist_target_system.1 filterWithAllowList DUMMY_CALLING_UID
      (settingOf (pkgPlain "com.some.other.package")) (pkgPlain "com.some.other.package")
      targetSettingAllowedSystem (pkgPlain "com.some.package") 0
      rfl (by decide) rfl rfl,
    claim1_allowlist_target_system.2 filterWithAllowList DUMMY_CALLING_UID
      (settingOf (pkgPlain "com.some.other.package")) (pkgPlain "com.some.other.package")
      (settingOf (pkgPlain "com.some.package")) (pkgPlain "com.some.package") 0
      (by decide) rfl (by decide) rfl rfl (by decide) rfl rfl (by decide)
      (by decide) (by decide)⟩

/-- Helper examples checked by the development: the modelled engine
reproduces every assertion of the in-repository test suite. -/
theorem engine_matches_test_suite :
    shouldFilterApplication defaultFilter DUMMY_CALLING_UID
      (some (settingOf callerPkgQueriesAction)) (settingOf targetPkgWithFilter) 0 = false ∧
    shouldFilterApplication defaultFilter DUMMY_CALLING_UID
      (some (settingOf callerPkgQueriesAction)) (settingOf (pkgPlain "com.some.package")) 0 = true ∧
    shouldFilterApplication defaultFilter DUMMY_CALLING_UID
      (some (settingOf callerPkgQueriesActionLowSdk))
      (settingOf (pkgPlain "com.some.package")) 0 = false ∧
    shouldFilterApplication defaultFilter DUMMY_CALLING_UID
      (some (settingOf (pkgPlain "com.some.other.package")))
      (settingOf (pkgPlain "com.some.package")) 0 = true ∧
    shouldFilterApplication defaultFilter DUMMY_CALLING_UID
      (some (settingOf (pkgPlain "com.some.other.package")))
      (settingOf { pkgPlain "com.some.package" with isForceQueryable := true }) 0 = false ∧
    shouldFilterApplication filterWithAllowList DUMMY_CALLING_UID
      (some (settingOf (pkgPlain "com.some.other.package")))
      targetSettingAllowedSystem 0 = false ∧
    shouldFilterApplication filterWithAllowList DUMMY_CALLING_UID
      (some (settingOf (pkgPlain "com.some.other.package")))
      (settingOf (pkgPlain "com.some.package")) 0 = true ∧
    shouldFilterApplication { defaultFilter with systemAppsQueryable := true }
      DUMMY_CALLING_UID
      (some (settingOf (pkgPlain "com.some.other.package")))
      { settingOf (pkgPlain "com.some.package") with isSystem := true } 0 = false ∧
    shouldFilterApplication defaultFilter DUMMY_CALLING_UID
      (some (settingOf
        { pkgPlain "com.some.other.package" with queriesPackages := ["com.some.package"] }))
      (settingOf (pkgPlain "com.some.package")) 0 = false ∧
    shouldFilterApplication
      { defaultFilter with
          featureConfig := { defaultConfig with disabledPackages := ["com.some.package"] } }
      DUMMY_CALLING_UID
      (some (settingOf (pkgPlain "com.some.other.package")))
      (settingOf (pkgPlain "com.some.package")) 0 = false ∧
    shouldFilterApplication defaultFilter 0 none
      (settingOf (pkgPlain "com.some.package")) 0 = false ∧
    shouldFilterApplication defaultFilter (FIRST_APPLICATION_UID - 1) none
      (settingOf (pkgPlain "com.some.package")) 0 = false ∧
    shouldFilterApplication defaultFilter DUMMY_CALLING_UID none
      (settingOf (pkgPlain "com.some.package")) 0 = true ∧
    shouldFilterApplication defaultFilter DUMMY_CALLING_UID
      (some (settingOf callerPkgQueriesAction)) targetSettingUnregistered 0 = true := by
  decide

/-- Claim C2, counterexample. The claim states a legacy caller (below the
mandatory-declaration SDK version) whose declared intent patterns match no
exposed filter of the target is filtered. The test suite's scenario
(`testQueriesAction_NoMatchingActionFilterLowSdk_DoesntFilter`) refutes
this: the caller targets SDK P, declares `TEST_ACTION`, the target exposes
no filter at all (no match exists), no other exemption applies, yet the
result is `false` (visible). -/
theorem claim2_counterexample :
    callerPkgQueriesActionLowSdk.targetSdkVersion < VERSION_R ∧
    matchesAnyFilter callerPkgQueriesActionLowSdk (pkgPlain "com.some.package") = false ∧
    shouldFilterApplication defaultFilter DUMMY_CALLING_UID
      (some (settingOf callerPkgQueriesActionLowSdk))
      (settingOf (pkgPlain "com.some.package")) 0 = false := by
  decide

/-- Claim C2, amended: the legacy-SDK carve-out is unconditional — every
caller whose record targets an SDK version below the mandatory-declaration
threshold is never filtered against any registered target, whether or not
any declared pattern matches an exposed filter. -/
theorem claim2_legacy_sdk_bypass (af : AppsFilter) (uid : Nat)
    (cs : PackageSetting) (cp : AndroidPackage)
    (ts : PackageSetting) (tp : AndroidPackage) (userId : Nat)
    (hts : ts.pkg = some tp) (hcs : cs.pkg = some cp)
    (hsdk : cp.targetSdkVersion < VERSION_R) :
    shouldFilterApplication af uid (some cs) ts userId = false := by
  simp [shouldFilterApplication, shouldFilterInternal, hts, hcs, hsdk]

/-- Witness for `claim2_legacy_sdk_bypass` at the test suite's low-SDK
scenario. -/
theorem claim2_witness :
    shouldFilterApplication defaultFilter DUMMY_CALLING_UID
      (some (settingOf callerPkgQueriesActionLowSdk))
      (settingOf (pkgPlain "com.some.package")) 0 = false :=
  claim2_legacy_sdk_bypass defaultFilter DUMMY_CALLING_UID
    (settingOf callerPkgQueriesActionLowSdk) callerPkgQueriesActionLowSdk
    (settingOf (pkgPlain "com.some.package")) (pkgPlain "com.some.package") 0
    rfl rfl (by decide)

/-- Claim C3, counterexample. The claim quantifies over ALL callers,
including system UIDs; but rule 1 of the decision algorithm precedes the
unregistered-target rule 2 ("this ordering is itself a contract"), so a
caller with UID 0 sees `false` (visible) even against an unregistered
target. -/
theorem claim3_counterexample :
    targetSettingUnregistered.pkg = none ∧
    shouldFilterApplication defaultFilter 0 none targetSettingUnregistered 0 = false := by
  decide

/-- Claim C3, amended: for every caller whose UID is at or above the
first-application threshold, an unregistered target (no backing record in
the Store) is filtered, whatever the caller's record. -/
theorem claim3_unregistered_target_filters (af : AppsFilter) (uid : Nat)
    (callingSetting : Option PackageSetting) (ts : PackageSetting) (userId : Nat)
    (huid : FIRST_APPLICATION_UID ≤ uid) (hts : ts.pkg = none) :
    shouldFilterApplication af uid callingSetting ts userId = true := by
  simp [shouldFilterApplication, hts, Nat.not_lt.mpr huid]

/-- Witness for `claim3_unregistered_target_filters` at the test suite's
unregistered-target scenario. -/
theorem claim3_witness :
    shouldFilterApplication defaultFilter DUMMY_CALLING_UID
      (some (settingOf callerPkgQueriesAction)) targetSettingUnregistered 0 = true :=
  claim3_unregistered_target_filters defaultFilter DUMMY_CALLING_UID
    (some (settingOf callerPkgQueriesAction)) targetSettingUnregistered 0
    (by decide) rfl

/-- Claim C4: (a) every call with a caller UID below the first-application
threshold returns `false`, for any caller setting (including none) and any
target; (b) a null caller record at or above the threshold against a
registered, feature-enabled target returns `true`. -/
theorem claim4_uid_threshold :
    (∀ (af : AppsFilter) (uid : Nat) (callingSetting : Option PackageSetting)
        (ts : PackageSetting) (userId : Nat),
      uid < FIRST_APPLICATION_UID →
      shouldFilterApplication af uid callingSetting ts userId = false) ∧
    (∀ (af : AppsFilter) (uid : Nat) (ts : PackageSetting) (tp : AndroidPackage)
        (userId : Nat),
      FIRST_APPLICATION_UID ≤ uid →
      ts.pkg = some tp →
      af.featureConfig.globallyEnabled = true →
      af.featureConfig.packageIsEnabled tp = true →
      shouldFilterApplication af uid none ts userId = true) := by
  constructor
  · intro af uid callingSetting ts userId huid
    simp [shouldFilterApplication, huid]
  · intro af uid ts tp userId huid hts hg hen
    simp [shouldFilterApplication, hts, hg, hen, Nat.not_lt.mpr huid]

/-- Witness for `claim4_uid_threshold` at the test suite's system-UID and
null-caller scenarios. -/
theorem claim4_witness :
    shouldFilterApplication defaultFilter 0 none
      (settingOf (pkgPlain "com.some.package")) 0 = false ∧
    shouldFilterApplication defaultFilter DUMMY_CALLING_UID none
      (settingOf (pkgPlain "com.some.package")) 0 = true :=
  ⟨claim4_uid_threshold.1 defaultFilter 0 none
      (settingOf (pkgPlain "com.some.package")) 0 (by decide),
    claim4_uid_threshold.2 defaultFilter DUMMY_CALLING_UID
      (settingOf (pkgPlain "com.some.package")) (pkgPlain "com.some.package") 0
      (by decide) rfl rfl (by decide)⟩

/-- Claim C5: for every caller with a non-system UID and a resolved record,
a registered target whose record has `isForceQueryable` set is visible
(`false`), whatever the configuration and whatever else the records hold. -/
theorem claim5_force_queryable (af : AppsFilter) (uid : Nat)
    (cs : PackageSetting) (cp : AndroidPackage)
    (ts : PackageSetting) (tp : AndroidPackage) (userId : Nat)
    (huid : FIRST_APPLICATION_UID ≤ uid)
    (hcs : cs.pkg = some cp)
    (hts : ts.pkg = some tp) (hfq : tp.isForceQueryable = true) :
    shouldFilterApplication af uid (some cs) ts userId = false := by
  simp [shouldFilterApplication, shouldFilterInternal, hts, hcs, hfq]

/-- Witness for `claim5_force_queryable` at the test suite's
force-queryable scenario. -/
theorem claim5_witness :
    shouldFilterApplication defaultFilter DUMMY_CALLING_UID
      (some (settingOf (pkgPlain "com.some.other.package")))
      (settingOf { pkgPlain "com.some.package" with isForceQueryable := true })
      0 = false :=
  claim5_force_queryable defaultFilter DUMMY_CALLING_UID
    (settingOf (pkgPlain "com.some.other.package")) (pkgPlain "com.some.other.package")
    (settingOf { pkgPlain "com.some.package" with isForceQueryable := true })
    { pkgPlain "com.some.package" with isForceQueryable := true } 0
    (by decide) rfl rfl rfl

end AppsFilterSpec

namespace AppsFilterSpec

/-- A caller with no declared queries of any kind that targets the legacy
SDK level P. -/
def callerPkgNoQueriesLowSdk : AndroidPackage :=
  { pkgPlain "com.some.other.package" with targetSdkVersion := VERSION_P }

/-- Claim C6, counterexample. The claim quantifies over every registered
(caller, target) pair with no declared queries and no exemption on the
target, asserting default-deny; but the legacy-SDK carve-out exempts the
caller itself: a caller targeting SDK P with no declared query intents and
no declared package names, against a plain target with no exemption at
all, under the default enabled configuration and a non-system UID, gets
`false` (visible), not `true`. -/
theorem claim6_counterexample :
    callerPkgNoQueriesLowSdk.queriesIntents = [] ∧
    callerPkgNoQueriesLowSdk.queriesPackages = [] ∧
    (pkgPlain "com.some.package").isForceQueryable = false ∧
    defaultFilter.forceQueryableByDevice = [] ∧
    defaultFilter.systemAppsQueryable = false ∧
    defaultFilter.featureConfig.globallyEnabled = true ∧
    shouldFilterApplication defaultFilter DUMMY_CALLING_UID
      (some (settingOf callerPkgNoQueriesLowSdk))
      (settingOf (pkgPlain "com.some.package")) 0 = false := by
  decide

/-- Claim C6, amended: default-deny additionally requires the caller's
record to target at least the SDK version at which query declarations
became mandatory. For every registered (caller, target) pair where the
caller declares no query intents and no explicit package names and targets
SDK R or above, and the target is neither force-queryable nor covered by a
system exemption (neither the device allow-list with the system flag, nor
the device-wide system-queryable policy with the system flag), a
non-system caller UID with the feature enabled yields `true`. -/
theorem claim6_default_deny (af : AppsFilter) (uid : Nat)
    (cs : PackageSetting) (cp : AndroidPackage)
    (ts : PackageSetting) (tp : AndroidPackage) (userId : Nat)
    (huid : FIRST_APPLICATION_UID ≤ uid)
    (hg : af.featureConfig.globallyEnabled = true)
    (hen : af.featureConfig.packageIsEnabled tp = true)
    (hts : ts.pkg = some tp) (hcs : cs.pkg = some cp)
    (hqi : cp.queriesIntents = []) (hqp : cp.queriesPackages = [])
    (hsdk : VERSION_R ≤ cp.targetSdkVersion)
    (hfq : tp.isForceQueryable = false)
    (hex1 : tp.packageName ∉ af.forceQueryableByDevice ∨ ts.isSystem = false)
    (hex2 : af.systemAppsQueryable = false ∨ ts.isSystem = false) :
    shouldFilterApplication af uid (some cs) ts userId = true := by
  have hm : matchesAnyFilter cp tp = false := by
    simp [matchesAnyFilter, hqi]
  have hqp2 : tp.packageName ∉ cp.queriesPackages := by
    simp [hqp]
  rcases hex1 with hal | hsys1 <;> rcases hex2 with hsq | hsys2 <;>
    simp_all [shouldFilterApplication, shouldFilterInternal,
      Nat.not_lt.mpr huid, Nat.not_lt.mpr hsdk]

/-- Witness for `claim6_default_deny` at the test suite's no-queries
scenario. -/
theorem claim6_witness :
    shouldFilterApplication defaultFilter DUMMY_CALLING_UID
      (some (settingOf (pkgPlain "com.some.other.package")))
      (settingOf (pkgPlain "com.some.package")) 0 = true :=
  claim6_default_deny defaultFilter DUMMY_CALLING_UID
    (settingOf (pkgPlain "com.some.other.package")) (pkgPlain "com.some.other.package")
    (settingOf (pkgPlain "com.some.package")) (pkgPlain "com.some.package") 0
    (by decide) rfl (by decide) rfl rfl rfl rfl (by decide) rfl
    (Or.inl (by decide)) (Or.inl rfl)

/-- Claim C7: the declared-query action-matching scenarios. A caller
declaring a query intent with action `TEST_ACTION` at the current SDK
version sees a target exposing a filter with action `TEST_ACTION`
(`false`), and is filtered (`true`) against the same target with no
matching filter. -/
theorem claim7_action_match_scenarios :
    callerPkgQueriesAction.queriesIntents =
      [{ action := "TEST_ACTION", dataScheme := none }] ∧
    callerPkgQueriesAction.targetSdkVersion = VERSION_R ∧
    targetPkgWithFilter.exposedFilters =
      [{ actions := ["TEST_ACTION"], categories := [], dataSchemes := [] }] ∧
    shouldFilterApplication defaultFilter DUMMY_CALLING_UID
      (some (settingOf callerPkgQueriesAction)) (settingOf targetPkgWithFilter) 0 = false ∧
    shouldFilterApplication defaultFilter DUMMY_CALLING_UID
      (some (settingOf callerPkgQueriesAction))
      (settingOf (pkgPlain "com.some.package")) 0 = true := by
  decide

/-- Claim C8: when the filtering feature is disabled process-wide, or
disabled for the target package by policy configuration, the result is
`false` for every caller (in particular one declaring no queries) against
any registered target. -/
theorem claim8_feature_disabled (af : AppsFilter) (uid : Nat)
    (callingSetting : Option PackageSetting) (ts : PackageSetting)
    (tp : AndroidPackage) (userId : Nat)
    (hts : ts.pkg = some tp)
    (hoff : af.featureConfig.globallyEnabled = false ∨
      tp.packageName ∈ af.featureConfig.disabledPackages) :
    shouldFilterApplication af uid callingSetting ts userId = false := by
  rcases hoff with h | h <;>
    simp [shouldFilterApplication, FeatureConfig.packageIsEnabled, hts, h]

/-- Witness for `claim8_feature_disabled` at the test suite's feature-off
scenario (filtering disabled for the target by policy). -/
theorem claim8_witness :
    shouldFilterApplication
      { defaultFilter with
          featureConfig := { defaultConfig with disabledPackages := ["com.some.package"] } }
      DUMMY_CALLING_UID
      (some (settingOf (pkgPlain "com.some.other.package")))
      (settingOf (pkgPlain "com.some.package")) 0 = false :=
  claim8_feature_disabled
    { defaultFilter with
        featureConfig := { defaultConfig with disabledPackages := ["com.some.package"] } }
    DUMMY_CALLING_UID
    (some (settingOf (pkgPlain "com.some.other.package")))
    (settingOf (pkgPlain "com.some.package")) (pkgPlain "com.some.package") 0
    rfl (Or.inr (by decide))

/-- Claim C9: registering the same package name a second time without an
intervening removal fails with `DuplicatePackage` and returns the engine
state (Store and Declaration Index) unchanged. -/
theorem claim9_duplicate_add (s s2 : EngineState) (p : AndroidPackage)
    (h : addPackage p s = (s2, none)) :
    addPackage p s2 = (s2, some EngineError.DuplicatePackage) := by
  unfold addPackage at h
  split at h
  · exact absurd (congrArg Prod.snd h) (by simp)
  · injection h with h1 h2
    subst h1
    simp [addPackage, storeContains]

/-- The engine's initial state: empty Store, empty Declaration Index. -/
def emptyEngineState : EngineState := { store := [], declIndex := [] }

/-- Witness for `claim9_duplicate_add`: adding `targetPkgWithFilter` to the
empty state succeeds; adding it again fails with `DuplicatePackage`,
leaving the state fixed. -/
theorem claim9_witness :
    addPackage targetPkgWithFilter (addPackage targetPkgWithFilter emptyEngineState).fst =
      ((addPackage targetPkgWithFilter emptyEngineState).fst,
        some EngineError.DuplicatePackage) :=
  claim9_duplicate_add emptyEngineState
    (addPackage targetPkgWithFilter emptyEngineState).fst targetPkgWithFilter rfl

/-- Claim C10: the engine's `onSystemReady` lifecycle hook propagates the
readiness signal to its `FeatureConfig`: the resulting configuration is
exactly the configuration's own `onSystemReady`, and its readiness bit is
set. -/
theorem claim10_system_ready_propagates :
    ∀ af : AppsFilter,
      (AppsFilter.onSystemReady af).featureConfig =
        FeatureConfig.onSystemReady af.featureConfig ∧
      ((AppsFilter.onSystemReady af).featureConfig).systemReady = true :=
  fun _ => ⟨rfl, rfl⟩

end AppsFilterSpec
